import Mathlib

/-!
Shallow embedding of the Subscription-Service repository (Go, three layers:
HTTP handlers → domain service → SQL repository) and proofs about its
validation, status-mapping, and summary-query semantics.

Conventions of the embedding:
* `UUID` is modelled as `Nat`; `uuid.Nil` is `UUID.nil = 0`; `uuid.New()` is
  modelled by passing the freshly generated value as an explicit argument.
* Go's `time.Parse("01-2006", s)` / `Format("01-2006")` are embedded as
  `parseMonthYear` / `formatMonthYear` (exactly two month digits, a dash,
  exactly four year digits; month range 1..12 checked as Go does).
* The SQL store is modelled as a `List Subscription` of rows; a query that can
  fail at the connection level takes an `Except String (List Subscription)`.
* SQL text comparison on the `MM-YYYY` month-string columns is byte-wise
  lexicographic, embedded as `strLe`.
* Fallible Go calls returning `error` are embedded as `Except String α`;
  service-interface dependencies of a handler are passed as function arguments.
-/

/-! ## Identifiers -/

/-- `uuid.UUID`, abstracted to a natural number. -/
abbrev UUID := Nat

/-- `uuid.Nil`, the zero UUID. -/
def UUID.nil : UUID := 0

/-! ## Go month-string parsing and formatting (`time.Parse`/`Format`, layout `01-2006`) -/

/-- Numeric value of an ASCII digit character, `none` on non-digits. -/
def digitVal (c : Char) : Option Nat :=
  if 48 ≤ c.toNat ∧ c.toNat ≤ 57 then some (c.toNat - 48) else none

/-- ASCII digit character of a value below ten. -/
def digitChar (n : Nat) : Char := Char.ofNat (48 + n % 10)

/-- `time.Parse("01-2006", s)`: requires exactly `MM-YYYY` (two month digits,
a literal dash, four year digits) and month in 1..12; yields (month, year). -/
def parseMonthYear (s : String) : Option (Nat × Nat) :=
  match s.data with
  | [m1, m2, sep, y1, y2, y3, y4] =>
    if sep = '-' then
      match digitVal m1, digitVal m2, digitVal y1, digitVal y2, digitVal y3, digitVal y4 with
      | some a, some b, some c, some d, some e, some f =>
        if 1 ≤ 10 * a + b ∧ 10 * a + b ≤ 12 then
          some (10 * a + b, 1000 * c + 100 * d + 10 * e + f)
        else none
      | _, _, _, _, _, _ => none
    else none
  | _ => none

/-- `t.Format("01-2006")`: zero-padded two-digit month, dash, four-digit year. -/
def formatMonthYear (month year : Nat) : String :=
  String.mk [digitChar (month / 10), digitChar (month % 10), '-',
             digitChar (year / 1000), digitChar (year / 100 % 10),
             digitChar (year / 10 % 10), digitChar (year % 10)]

/-! ## Lexicographic string comparison (SQL text `<=` on `MM-YYYY` columns) -/

/-- Lexicographic comparison of character lists. -/
def charListLe : List Char → List Char → Bool
  | [], _ => true
  | _ :: _, [] => false
  | a :: as, b :: bs => if a < b then true else if b < a then false else charListLe as bs

/-- Byte-wise lexicographic `<=` on strings, as the SQL store compares the
month-string columns. -/
def strLe (a b : String) : Bool := charListLe a.data b.data

/-! ## Data model (`internal/models/models.go`) -/

/-- `models.Subscription`: one stored row / entity. -/
structure Subscription where
  id : UUID
  serviceName : String
  price : Int
  userId : UUID
  startDate : String
  endDate : Option String
deriving DecidableEq, Repr

/-- `models.SubReq`: create/update request body. -/
structure SubReq where
  serviceName : String
  price : Int
  userId : UUID
  startDate : String
  endDate : Option String
deriving DecidableEq, Repr

/-- A Go `time.Time` as far as this system observes it: its calendar month,
its year, and whether it is the zero time (`IsZero`). -/
structure GoTime where
  month : Nat
  year : Nat
  isZero : Bool
deriving DecidableEq, Repr

/-- `models.GetSummaryReq`: summary request body, with full timestamps. -/
structure GetSummaryReq where
  serviceName : String
  «from» : GoTime
  «to» : GoTime
  userId : Option UUID
deriving DecidableEq, Repr

/-- `models.GetSummary`: the repository-level summary request, with
month-string bounds (empty string means no bound). -/
structure GetSummary where
  «from» : String
  «to» : String
  userId : Option UUID
  serviceName : String
deriving DecidableEq, Repr

/-- `models.SubscriptionFilter`: optional equality filters for listing. -/
structure SubscriptionFilter where
  userId : Option UUID
  serviceName : Option String
deriving DecidableEq, Repr

/-- `models.Response`: the uniform JSON response envelope. -/
structure Response (α : Type) where
  status : Nat
  msg : String
  data : Option α
deriving DecidableEq, Repr

/-- An HTTP reply as produced by the handler layer: the status code written
on the wire (`w.WriteHeader`) together with the encoded envelope body. -/
structure HttpReply (α : Type) where
  httpStatus : Nat
  body : Response α
deriving DecidableEq, Repr

/-! ## Repository (`internal/repository/postgres.go`) -/

namespace Repository

/-- Effect of the `UPDATE subscriptions SET service_name, price, start_date,
end_date WHERE id = $5` statement on one stored row. -/
def rowUpdate (id : UUID) (newSubs : Subscription) (row : Subscription) : Subscription :=
  if row.id = id then
    { row with
      serviceName := newSubs.serviceName
      price := newSubs.price
      startDate := newSubs.startDate
      endDate := newSubs.endDate }
  else row

/-- `Repository.UpdateSubs`: executes the UPDATE statement against the table. -/
def UpdateSubs (db : List Subscription) (id : UUID) (newSubs : Subscription) :
    List Subscription :=
  db.map (rowUpdate id newSubs)

/-- The WHERE clause of `Repository.GetSummary`'s query, clause for clause:
`($1 = '' OR start_date <= $1) AND ($2 = '' OR end_date >= $2 OR end_date IS
NULL) AND ($3 IS NULL OR user_id = $3) AND ($4 = '' OR service_name = $4)`,
where the query binds `$1 := sum.To`, `$2 := sum.From`, `$3 := sum.UserID`,
`$4 := sum.ServiceName`. -/
def summaryWhere (sum : GetSummary) (row : Subscription) : Bool :=
  (sum.«to» == "" || strLe row.startDate sum.«to») &&
  (sum.«from» == "" ||
    (match row.endDate with
     | some e => strLe sum.«from» e
     | none => true)) &&
  (match sum.userId with
   | none => true
   | some u => row.userId == u) &&
  (sum.serviceName == "" || row.serviceName == sum.serviceName)

/-- `Repository.GetSummary`: `SELECT COALESCE(SUM(price), 0) ... WHERE ...`.
`queryRes` is the store's answer to the query: either a connection-level
failure or the table rows. On failure the error is wrapped as in the Go code;
otherwise the matching rows' prices are summed (0 when none match). -/
def GetSummary (queryRes : Except String (List Subscription)) (sum : GetSummary) :
    Except String Int :=
  match queryRes with
  | .error e => .error ("failed to calculate summary: " ++ e)
  | .ok rows => .ok (((rows.filter (summaryWhere sum)).map Subscription.price).sum)

end Repository

/-! ## Domain service (`internal/service/service.go`) -/

namespace SubscriptionService

/-- The `models.GetSummary` value that `SubscriptionService.GetSummary` builds
from the request: each non-zero timestamp is rendered with layout `01-2006`,
a zero timestamp becomes the empty string; user id and service name are
copied over. -/
def summaryRequest (req : GetSummaryReq) : GetSummary :=
  { «from» := if req.«from».isZero then "" else formatMonthYear req.«from».month req.«from».year
    «to» := if req.«to».isZero then "" else formatMonthYear req.«to».month req.«to».year
    userId := req.userId
    serviceName := req.serviceName }

/-- `SubscriptionService.GetSummary`: formats the bounds and delegates to the
repository (passed in as the service's repository dependency). -/
def GetSummary (repoGetSummary : GetSummary → Except String Int)
    (req : GetSummaryReq) : Except String Int :=
  repoGetSummary (summaryRequest req)

end SubscriptionService

/-! ## Handlers (`internal/router/handlers/handlers.go`) -/

namespace SubscriptionHandler

/-- `sendResponse`: writes the HTTP status code and encodes the envelope with
the same status, the message and the optional payload. -/
def sendResponse {α : Type} (data : Option α) (message : String) (status : Nat) :
    HttpReply α :=
  { httpStatus := status
    body := { status := status, msg := message, data := data } }

/-- `validateSubReq`: field validation for create/update bodies, in source
order, short-circuiting at the first failing rule; returns the reformatted
start date and (when present) reformatted end date. -/
def validateSubReq (sub : SubReq) : Except String (String × Option String) :=
  if sub.serviceName = "" then .error "invalid service name"
  else if sub.price ≤ 0 then .error "invalid price"
  else if sub.userId = UUID.nil then .error "invalid user id"
  else
    match parseMonthYear sub.startDate with
    | none => .error "invalid start date"
    | some startDate =>
      match sub.endDate with
      | none => .ok (formatMonthYear startDate.1 startDate.2, none)
      | some d =>
        match parseMonthYear d with
        | none => .error "invalid end date"
        | some endDate =>
          .ok (formatMonthYear startDate.1 startDate.2,
               some (formatMonthYear endDate.1 endDate.2))

/-- `CreateSubs` handler. `body` is the JSON decode result (`none` = decode
failure), `freshId` the value produced by `uuid.New()`, `svcCreateSubs` the
service dependency. -/
def CreateSubs (body : Option SubReq) (freshId : UUID)
    (svcCreateSubs : Subscription → Except String Unit) : HttpReply Subscription :=
  match body with
  | none => sendResponse none "Invalid request body" 400
  | some subReq =>
    match validateSubReq subReq with
    | .error e => sendResponse none ("Invalid request body: " ++ e) 400
    | .ok (startDate, endDate) =>
      let sub : Subscription :=
        { id := freshId
          serviceName := subReq.serviceName
          price := subReq.price
          userId := subReq.userId
          startDate := startDate
          endDate := endDate }
      match svcCreateSubs sub with
      | .error _ => sendResponse none "Failed to create subscription" 500
      | .ok _ => sendResponse (some sub) "Successfully created subscription" 200

/-- `GetSubs` handler. `idParam` is the staged `id` query parameter: `none` =
parameter missing, `some none` = present but not a parseable UUID,
`some (some id)` = parsed. -/
def GetSubs (idParam : Option (Option UUID))
    (svcGetSub : UUID → Except String Subscription) : HttpReply Subscription :=
  match idParam with
  | none => sendResponse none "Missing id parameter" 400
  | some none => sendResponse none "Invalid id format" 400
  | some (some id) =>
    match svcGetSub id with
    | .error _ => sendResponse none "Failed to get subscription" 500
    | .ok sub => sendResponse (some sub) "Successfully get subscriptions" 200

/-- Outcome of the update handler: the reply sent, plus a record of the
service update call that was made (`none` when the persistence update was
never invoked). -/
structure UpdateOutcome where
  reply : HttpReply Subscription
  updateCall : Option (UUID × Subscription)
deriving DecidableEq, Repr

/-- `UpdateSubs` handler. Stages: `id` query parameter, JSON body decode,
field validation, existence pre-check, persistence update. `freshId` is the
`uuid.New()` value placed in the response entity. -/
def UpdateSubs (idParam : Option (Option UUID)) (body : Option SubReq) (freshId : UUID)
    (svcSubscriptionExists : UUID → Except String Bool)
    (svcUpdateSubs : UUID → Subscription → Except String Unit) : UpdateOutcome :=
  match idParam with
  | none => ⟨sendResponse none "Missing id parameter" 400, none⟩
  | some none =>
    ⟨sendResponse none "Invalid id format, example xxxxxxxx-xxxx-xxxx-xxxx-xxxxxxxxxxxx" 400,
     none⟩
  | some (some id) =>
    match body with
    | none => ⟨sendResponse none "Invalid request body" 400, none⟩
    | some subReq =>
      match validateSubReq subReq with
      | .error e => ⟨sendResponse none ("Invalid request body: " ++ e) 400, none⟩
      | .ok (startDate, endDate) =>
        let sub : Subscription :=
          { id := freshId
            serviceName := subReq.serviceName
            price := subReq.price
            userId := subReq.userId
            startDate := startDate
            endDate := endDate }
        match svcSubscriptionExists id with
        | .error _ => ⟨sendResponse none "Subscription does not exist" 404, none⟩
        | .ok false => ⟨sendResponse none "Subscription does not exist" 404, none⟩
        | .ok true =>
          match svcUpdateSubs id sub with
          | .error _ =>
            ⟨sendResponse none "Failed to update subscription" 500, some (id, sub)⟩
          | .ok _ =>
            ⟨sendResponse (some sub) "Successfully updated subscription" 200, some (id, sub)⟩

/-- `DeleteSubs` handler. -/
def DeleteSubs (idParam : Option (Option UUID))
    (svcDeleteSubs : UUID → Except String Unit) : HttpReply Unit :=
  match idParam with
  | none => sendResponse none "Missing id parameter" 400
  | some none => sendResponse none "Invalid id format" 400
  | some (some id) =>
    match svcDeleteSubs id with
    | .error _ => sendResponse none "Failed to delete subscription" 500
    | .ok _ => sendResponse none "Successfully deleted subscription" 200

/-- `ListSubs` handler. `userIdParam` is the staged `userId` query parameter
(`none` = empty, `some none` = present but unparseable, `some (some u)` =
parsed); `serviceName` is the raw `serviceName` query parameter (empty string
= absent). -/
def ListSubs (userIdParam : Option (Option UUID)) (serviceName : String)
    (svcListSubs : SubscriptionFilter → Except String (List Subscription)) :
    HttpReply (List Subscription) :=
  match userIdParam with
  | some none => sendResponse none "Invalid user id parameter" 400
  | none =>
    match svcListSubs ⟨none, if serviceName = "" then none else some serviceName⟩ with
    | .error _ => sendResponse none "Failed to get list subs" 500
    | .ok subs => sendResponse (some subs) "Successfully get list subs" 200
  | some (some u) =>
    match svcListSubs ⟨some u, if serviceName = "" then none else some serviceName⟩ with
    | .error _ => sendResponse none "Failed to get list subs" 500
    | .ok subs => sendResponse (some subs) "Successfully get list subs" 200

/-- The anonymous `struct{ Total int }` payload of the summary response. -/
structure SummaryTotal where
  total : Int
deriving DecidableEq, Repr

/-- `GetSummary` handler. -/
def GetSummary (body : Option GetSummaryReq)
    (svcGetSummary : GetSummaryReq → Except String Int) : HttpReply SummaryTotal :=
  match body with
  | none => sendResponse none "Invalid request body" 400
  | some sumReq =>
    match svcGetSummary sumReq with
    | .error _ => sendResponse none "Failed to get summary" 500
    | .ok total => sendResponse (some ⟨total⟩) "Successfully get summary" 200

end SubscriptionHandler

/-! ## Helper lemmas on digits and month-strings -/

/-- A digit character is recovered by rendering its value. -/
theorem digitChar_digitVal {c : Char} {n : Nat} (h : digitVal c = some n) :
    digitChar n = c ∧ n ≤ 9 := by
  unfold digitVal at h
  split at h
  case isTrue hc =>
    have hn : c.toNat - 48 = n := by
      simpa using h
    refine ⟨?_, by omega⟩
    have h48 : 48 + n % 10 = c.toNat := by omega
    unfold digitChar
    rw [h48, Char.ofNat_toNat]
  case isFalse => exact absurd h (by simp)

/-- Rendering a digit value parses back to it. -/
theorem digitVal_digitChar (n : Nat) (hn : n ≤ 9) : digitVal (digitChar n) = some n := by
  interval_cases n <;> decide

/-- Parse-then-format is the identity on strings accepted by
`parseMonthYear`: the Go layout admits exactly the canonical rendering. -/
theorem format_parse {s : String} {m y : Nat} (h : parseMonthYear s = some (m, y)) :
    formatMonthYear m y = s := by
  obtain ⟨l⟩ := s
  unfold parseMonthYear at h
  split at h
  case h_2 => exact absurd h (by simp)
  case h_1 m1 m2 sep y1 y2 y3 y4 heq =>
    split at h
    case isFalse => exact absurd h (by simp)
    case isTrue hsep =>
      subst hsep
      split at h
      case h_2 => exact absurd h (by simp)
      case h_1 a b c d e f ha hb hc hd he hf =>
        split at h
        case isFalse => exact absurd h (by simp)
        case isTrue hrange =>
          have hmy := h.symm
          simp at hmy
          obtain ⟨hm, hy⟩ := hmy
          obtain ⟨hca, ha9⟩ := digitChar_digitVal ha
          obtain ⟨hcb, hb9⟩ := digitChar_digitVal hb
          obtain ⟨hcc, hc9⟩ := digitChar_digitVal hc
          obtain ⟨hcd, hd9⟩ := digitChar_digitVal hd
          obtain ⟨hce, he9⟩ := digitChar_digitVal he
          obtain ⟨hcf, hf9⟩ := digitChar_digitVal hf
          have e1 : m / 10 = a := by omega
          have e2 : m % 10 = b := by omega
          have e3 : y / 1000 = c := by omega
          have e4 : y / 100 % 10 = d := by omega
          have e5 : y / 10 % 10 = e := by omega
          have e6 : y % 10 = f := by omega
          have hl : l = [m1, m2, '-', y1, y2, y3, y4] := heq
          rw [hl]
          simp [formatMonthYear, e1, e2, e3, e4, e5, e6, hca, hcb, hcc, hcd, hce, hcf]

/-- Formatting an in-range month/year gives a string the parser accepts and
maps back to the same pair. -/
theorem parse_format {m y : Nat} (hm1 : 1 ≤ m) (hm2 : m ≤ 12) (hy : y ≤ 9999) :
    parseMonthYear (formatMonthYear m y) = some (m, y) := by
  unfold parseMonthYear formatMonthYear
  simp only [String.data]
  rw [digitVal_digitChar (m / 10) (by omega), digitVal_digitChar (m % 10) (by omega),
      digitVal_digitChar (y / 1000) (by omega), digitVal_digitChar (y / 100 % 10) (by omega),
      digitVal_digitChar (y / 10 % 10) (by omega), digitVal_digitChar (y % 10) (by omega)]
  have hmm : 10 * (m / 10) + m % 10 = m := by omega
  simp [hmm]
  constructor
  · omega
  · omega

/-! ## Claim C1: summary selects exactly the overlap-test rows -/

/-- Transcription of claim C1's row condition, in the spec's own phrasing:
(the "to" bound is empty OR `start_date <= to`) AND (the "from" bound is empty
OR `end_date >= from` OR `end_date` is absent) AND (user-id filter absent OR
the row's user id equals it) AND (service-name filter empty OR the row's
service name equals it). -/
def claimSummarySelects (sum : GetSummary) (row : Subscription) : Prop :=
  (sum.«to» = "" ∨ strLe row.startDate sum.«to» = true) ∧
  (sum.«from» = "" ∨ (∃ e, row.endDate = some e ∧ strLe sum.«from» e = true) ∨
    row.endDate = none) ∧
  (sum.userId = none ∨ sum.userId = some row.userId) ∧
  (sum.serviceName = "" ∨ row.serviceName = sum.serviceName)

/-- The spec-side condition coincides with the executable WHERE clause. -/
theorem claimSummarySelects_iff (sum : GetSummary) (row : Subscription) :
    claimSummarySelects sum row ↔ Repository.summaryWhere sum row = true := by
  unfold claimSummarySelects Repository.summaryWhere
  cases hED : row.endDate <;> cases hU : sum.userId <;>
    simp [hED, hU, Bool.and_eq_true, Bool.or_eq_true, beq_iff_eq] <;>
    tauto

instance (sum : GetSummary) (row : Subscription) : Decidable (claimSummarySelects sum row) :=
  decidable_of_iff _ (claimSummarySelects_iff sum row).symm

/-- C1: for every summary request, the repository's Summary operation returns
the sum of `price` over exactly the rows satisfying the overlap test — the
"to" value compared against `start_date`, the "from" value against
`end_date` (or end date absent), plus the optional user-id and service-name
equality filters. -/
theorem getSummary_overlap_filter (sum : GetSummary) (rows : List Subscription) :
    Repository.GetSummary (Except.ok rows) sum =
      Except.ok (((rows.filter fun r => decide (claimSummarySelects sum r)).map
        Subscription.price).sum) := by
  have hg : Repository.GetSummary (Except.ok rows) sum =
      Except.ok (((rows.filter (Repository.summaryWhere sum)).map Subscription.price).sum) := rfl
  have h : ∀ r ∈ rows, Repository.summaryWhere sum r = decide (claimSummarySelects sum r) := by
    intro r _
    by_cases hc : claimSummarySelects sum r
    · rw [(claimSummarySelects_iff sum r).mp hc, decide_eq_true hc]
    · have hw : ¬ Repository.summaryWhere sum r = true :=
        fun hq => hc ((claimSummarySelects_iff sum r).mpr hq)
      rw [Bool.not_eq_true] at hw
      rw [hw, decide_eq_false hc]
  rw [hg, List.filter_congr h]

/-! ## Claim C8: zero total and no error when nothing matches -/

/-- C8: when no stored row satisfies the summary filters, the Summary
operation succeeds with total 0 (no error for the no-results case). -/
theorem getSummary_no_match_ok_zero (sum : GetSummary) (rows : List Subscription)
    (h : ∀ r ∈ rows, Repository.summaryWhere sum r = false) :
    Repository.GetSummary (Except.ok rows) sum = Except.ok 0 := by
  have hg : Repository.GetSummary (Except.ok rows) sum =
      Except.ok (((rows.filter (Repository.summaryWhere sum)).map Subscription.price).sum) := rfl
  have hnil : rows.filter (Repository.summaryWhere sum) = [] :=
    List.filter_eq_nil_iff.mpr (by simpa using h)
  rw [hg, hnil]
  rfl

/-- Witness for C8 at a concrete store and request. -/
theorem getSummary_no_match_ok_zero_witness :
    Repository.GetSummary
      (Except.ok [{ id := 1, serviceName := "Netflix", price := 15, userId := 2,
                    startDate := "01-2025", endDate := none }])
      { «from» := "", «to» := "", userId := none, serviceName := "Spotify" } =
      Except.ok 0 :=
  getSummary_no_match_ok_zero _ _ (by decide)

/-! ## Claim C7: persistence update replaces four fields and nothing else -/

/-- C7: the persistence Update replaces only `service_name`, `price`,
`start_date`, `end_date` of the row matching the id, preserving that row's
`id` and `user_id`, and leaves every other row unchanged. -/
theorem updateSubs_frame (db : List Subscription) (id : UUID) (n : Subscription)
    (i : Nat) (row : Subscription) (h : db.get? i = some row) :
    ∃ row2, (Repository.UpdateSubs db id n).get? i = some row2 ∧
      row2.id = row.id ∧ row2.userId = row.userId ∧
      (row.id = id → row2.serviceName = n.serviceName ∧ row2.price = n.price ∧
        row2.startDate = n.startDate ∧ row2.endDate = n.endDate) ∧
      (row.id ≠ id → row2 = row) := by
  refine ⟨Repository.rowUpdate id n row, ?_, ?_, ?_, ?_, ?_⟩
  · unfold Repository.UpdateSubs
    rw [List.get?_map, h]
    rfl
  · by_cases hid : row.id = id <;> simp [Repository.rowUpdate, hid]
  · by_cases hid : row.id = id <;> simp [Repository.rowUpdate, hid]
  · intro hid
    simp [Repository.rowUpdate, hid]
  · intro hid
    simp [Repository.rowUpdate, hid]

/-- Witness for C7 on a concrete two-row table, updating the first row. -/
theorem updateSubs_frame_witness :
    ∃ row2,
      (Repository.UpdateSubs
        [{ id := 1, serviceName := "Netflix", price := 15, userId := 7,
           startDate := "01-2025", endDate := none },
         { id := 2, serviceName := "Spotify", price := 10, userId := 8,
           startDate := "02-2025", endDate := none }] 1
        { id := 9, serviceName := "HBO", price := 20, userId := 3,
          startDate := "03-2025", endDate := some "04-2025" }).get? 0 = some row2 ∧
      row2.id = 1 ∧ row2.userId = 7 ∧
      ((1 : UUID) = 1 → row2.serviceName = "HBO" ∧ row2.price = 20 ∧
        row2.startDate = "03-2025" ∧ row2.endDate = some "04-2025") ∧
      ((1 : UUID) ≠ 1 →
        row2 = { id := 1, serviceName := "Netflix", price := 15, userId := 7,
                 startDate := "01-2025", endDate := none }) :=
  updateSubs_frame
    [{ id := 1, serviceName := "Netflix", price := 15, userId := 7,
       startDate := "01-2025", endDate := none },
     { id := 2, serviceName := "Spotify", price := 10, userId := 8,
       startDate := "02-2025", endDate := none }] 1
    { id := 9, serviceName := "HBO", price := 20, userId := 3,
      startDate := "03-2025", endDate := some "04-2025" } 0
    { id := 1, serviceName := "Netflix", price := 15, userId := 7,
      startDate := "01-2025", endDate := none } rfl

/-! ## Claim C3: validation order and first-failure reporting -/

/-- C3: field validation applies the rules in the fixed source order
(service name, price, user id, start date, end date), stops at the first
failing rule, and the handler's 400 message is `Invalid request body:
<reason>` for that first rule; in particular a payload violating both the
price and user-id rules reports the price error. -/
theorem validateSubReq_first_failure (sub : SubReq) (fid : UUID)
    (cf : Subscription → Except String Unit) :
    (sub.serviceName = "" →
      SubscriptionHandler.validateSubReq sub = .error "invalid service name") ∧
    (sub.serviceName ≠ "" → sub.price ≤ 0 →
      SubscriptionHandler.validateSubReq sub = .error "invalid price") ∧
    (sub.serviceName ≠ "" → 0 < sub.price → sub.userId = UUID.nil →
      SubscriptionHandler.validateSubReq sub = .error "invalid user id") ∧
    (sub.serviceName ≠ "" → 0 < sub.price → sub.userId ≠ UUID.nil →
      parseMonthYear sub.startDate = none →
      SubscriptionHandler.validateSubReq sub = .error "invalid start date") ∧
    (∀ my d, sub.serviceName ≠ "" → 0 < sub.price → sub.userId ≠ UUID.nil →
      parseMonthYear sub.startDate = some my → sub.endDate = some d →
      parseMonthYear d = none →
      SubscriptionHandler.validateSubReq sub = .error "invalid end date") ∧
    (∀ reason, SubscriptionHandler.validateSubReq sub = .error reason →
      SubscriptionHandler.CreateSubs (some sub) fid cf =
        SubscriptionHandler.sendResponse none ("Invalid request body: " ++ reason) 400) := by
  refine ⟨?_, ?_, ?_, ?_, ?_, ?_⟩
  · intro h1
    simp [SubscriptionHandler.validateSubReq, h1]
  · intro h1 h2
    simp [SubscriptionHandler.validateSubReq, h1, h2]
  · intro h1 h2 h3
    have h2n : ¬ sub.price ≤ 0 := not_le.mpr h2
    simp [SubscriptionHandler.validateSubReq, h1, h2n, h3]
  · intro h1 h2 h3 h4
    have h2n : ¬ sub.price ≤ 0 := not_le.mpr h2
    simp [SubscriptionHandler.validateSubReq, h1, h2n, h3, h4]
  · intro my d h1 h2 h3 h4 h5 h6
    have h2n : ¬ sub.price ≤ 0 := not_le.mpr h2
    simp [SubscriptionHandler.validateSubReq, h1, h2n, h3, h4, h5, h6]
  · intro reason hr
    simp [SubscriptionHandler.CreateSubs, hr]

/-- Witness for C3: a payload violating both the price and user-id rules
reports the price error, and the handler's message embeds it. -/
theorem validateSubReq_first_failure_witness :
    SubscriptionHandler.validateSubReq
      { serviceName := "Netflix", price := 0, userId := UUID.nil,
        startDate := "01-2025", endDate := none } = .error "invalid price" ∧
    SubscriptionHandler.CreateSubs
      (some { serviceName := "Netflix", price := 0, userId := UUID.nil,
              startDate := "01-2025", endDate := none }) 5 (fun _ => .ok ()) =
      SubscriptionHandler.sendResponse none "Invalid request body: invalid price" 400 :=
  have h := validateSubReq_first_failure
    { serviceName := "Netflix", price := 0, userId := UUID.nil,
      startDate := "01-2025", endDate := none } 5 (fun _ => .ok ())
  have hp := h.2.1 (by decide) (by decide)
  ⟨hp, h.2.2.2.2.2 "invalid price" hp⟩

/-! ## Claim C6: dates normalized to canonical `MM-YYYY`; reformat idempotent -/

/-- C6: for every body that passes validation, the returned dates are the
canonical `MM-YYYY` rendering of the parsed input (which, for the layout Go
uses, is the input itself), and re-running validation on the reformatted
dates returns them unchanged. -/
theorem validateSubReq_canonical (sub : SubReq) (s : String) (e : Option String)
    (h : SubscriptionHandler.validateSubReq sub = .ok (s, e)) :
    (∃ my, parseMonthYear sub.startDate = some my ∧ s = formatMonthYear my.1 my.2 ∧
      s = sub.startDate) ∧
    ((sub.endDate = none ∧ e = none) ∨
      (∃ d my, sub.endDate = some d ∧ parseMonthYear d = some my ∧
        e = some (formatMonthYear my.1 my.2) ∧ e = some d)) ∧
    SubscriptionHandler.validateSubReq { sub with startDate := s, endDate := e } =
      .ok (s, e) := by
  have hcopy := h
  unfold SubscriptionHandler.validateSubReq at h
  split at h
  case isTrue => exact absurd h (by simp)
  case isFalse h1 =>
  split at h
  case isTrue => exact absurd h (by simp)
  case isFalse h2 =>
  split at h
  case isTrue => exact absurd h (by simp)
  case isFalse h3 =>
  split at h
  case h_1 => exact absurd h (by simp)
  case h_2 my hps =>
  split at h
  case h_1 hed =>
    have hinj := h
    simp at hinj
    obtain ⟨hs, he⟩ := hinj
    have hcanon : s = sub.startDate := by rw [← hs, format_parse hps]
    refine ⟨⟨my, hps, hs.symm, hcanon⟩, Or.inl ⟨hed, he.symm⟩, ?_⟩
    have hrec : ({ sub with startDate := s, endDate := e } : SubReq) = sub := by
      rw [hcanon, ← he, ← hed]
    rw [hrec]
    exact hcopy
  case h_2 d hed =>
  split at h
  case h_1 => exact absurd h (by simp)
  case h_2 ed hpe =>
    have hinj := h
    simp at hinj
    obtain ⟨hs, he⟩ := hinj
    have hcanon : s = sub.startDate := by rw [← hs, format_parse hps]
    have hecanon : e = some d := by rw [← he, format_parse hpe]
    refine ⟨⟨my, hps, hs.symm, hcanon⟩, Or.inr ⟨d, ed, hed, hpe, he.symm, hecanon⟩, ?_⟩
    have hrec : ({ sub with startDate := s, endDate := e } : SubReq) = sub := by
      rw [hcanon, hecanon, ← hed]
    rw [hrec]
    exact hcopy

/-- Witness for C6 at a concrete valid payload carrying both dates. -/
theorem validateSubReq_canonical_witness :
    (∃ my, parseMonthYear "01-2025" = some my ∧ "01-2025" = formatMonthYear my.1 my.2 ∧
      ("01-2025" : String) = "01-2025") ∧
    (((some "12-2025" : Option String) = none ∧ (some "12-2025" : Option String) = none) ∨
      (∃ d my, (some "12-2025" : Option String) = some d ∧ parseMonthYear d = some my ∧
        (some "12-2025" : Option String) = some (formatMonthYear my.1 my.2) ∧
        (some "12-2025" : Option String) = some d)) ∧
    SubscriptionHandler.validateSubReq
      { serviceName := "Netflix", price := 15, userId := 7,
        startDate := "01-2025", endDate := some "12-2025" } =
      .ok ("01-2025", some "12-2025") :=
  validateSubReq_canonical
    { serviceName := "Netflix", price := 15, userId := 7,
      startDate := "01-2025", endDate := some "12-2025" }
    "01-2025" (some "12-2025") rfl

/-! ## Claim C5: service-level summary request formatting -/

/-- C5: the domain service's GetSummary renders each non-zero calendar
timestamp with the `MM-YYYY` layout, maps a zero timestamp to the empty
string, passes user id and service name through unchanged, and delegates the
resulting request to the persistence layer; the rendered string really is the
`MM-YYYY` form (the month-string parser maps it back to the same pair). -/
theorem service_getSummary_formats (repo : GetSummary → Except String Int)
    (req : GetSummaryReq) :
    SubscriptionService.GetSummary repo req = repo (SubscriptionService.summaryRequest req) ∧
    (SubscriptionService.summaryRequest req).userId = req.userId ∧
    (SubscriptionService.summaryRequest req).serviceName = req.serviceName ∧
    (req.«from».isZero = true → (SubscriptionService.summaryRequest req).«from» = "") ∧
    (req.«from».isZero = false →
      (SubscriptionService.summaryRequest req).«from» =
        formatMonthYear req.«from».month req.«from».year) ∧
    (req.«to».isZero = true → (SubscriptionService.summaryRequest req).«to» = "") ∧
    (req.«to».isZero = false →
      (SubscriptionService.summaryRequest req).«to» =
        formatMonthYear req.«to».month req.«to».year) ∧
    (∀ m y, 1 ≤ m → m ≤ 12 → y ≤ 9999 →
      parseMonthYear (formatMonthYear m y) = some (m, y)) := by
  refine ⟨rfl, rfl, rfl, ?_, ?_, ?_, ?_, ?_⟩
  · intro hz
    simp [SubscriptionService.summaryRequest, hz]
  · intro hz
    simp [SubscriptionService.summaryRequest, hz]
  · intro hz
    simp [SubscriptionService.summaryRequest, hz]
  · intro hz
    simp [SubscriptionService.summaryRequest, hz]
  · intro m y h1 h2 h3
    exact parse_format h1 h2 h3

/-- Witness for C5: a non-zero bound is rendered, a zero bound becomes the
empty string, and the rendered string parses back. -/
theorem service_getSummary_formats_witness :
    (SubscriptionService.summaryRequest
      { serviceName := "Netflix", «from» := { month := 2, year := 2025, isZero := false },
        «to» := { month := 1, year := 2026, isZero := false }, userId := some 7 }).«from» =
      formatMonthYear 2 2025 ∧
    (SubscriptionService.summaryRequest
      { serviceName := "", «from» := { month := 1, year := 1, isZero := true },
        «to» := { month := 1, year := 1, isZero := true }, userId := none }).«to» = "" ∧
    parseMonthYear (formatMonthYear 2 2025) = some (2, 2025) :=
  have hA := service_getSummary_formats (fun _ => .ok 0)
    { serviceName := "Netflix", «from» := { month := 2, year := 2025, isZero := false },
      «to» := { month := 1, year := 2026, isZero := false }, userId := some 7 }
  have hB := service_getSummary_formats (fun _ => .ok 0)
    { serviceName := "", «from» := { month := 1, year := 1, isZero := true },
      «to» := { month := 1, year := 1, isZero := true }, userId := none }
  ⟨hA.2.2.2.2.1 rfl, hB.2.2.2.2.2.1 rfl,
   hA.2.2.2.2.2.2.2 2 2025 (by decide) (by decide) (by decide)⟩

/-! ## Claim C4: 404 on missing target, persistence update never invoked -/

/-- C4: for an update request with a well-formed id and valid body, when the
existence pre-check reports that no such subscription exists, the handler
responds 404 and never invokes the persistence update. -/
theorem updateSubs_404_skips_update (id fid : UUID) (subReq : SubReq)
    (s : String) (e : Option String)
    (svcExists : UUID → Except String Bool)
    (svcUpd : UUID → Subscription → Except String Unit)
    (hv : SubscriptionHandler.validateSubReq subReq = .ok (s, e))
    (hex : svcExists id = .ok false) :
    (SubscriptionHandler.UpdateSubs (some (some id)) (some subReq) fid svcExists
      svcUpd).reply.httpStatus = 404 ∧
    (SubscriptionHandler.UpdateSubs (some (some id)) (some subReq) fid svcExists
      svcUpd).reply.body.msg = "Subscription does not exist" ∧
    (SubscriptionHandler.UpdateSubs (some (some id)) (some subReq) fid svcExists
      svcUpd).updateCall = none := by
  refine ⟨?_, ?_, ?_⟩ <;>
    simp [SubscriptionHandler.UpdateSubs, hv, hex, SubscriptionHandler.sendResponse]

/-- Witness for C4 at a concrete request whose target id is absent. -/
theorem updateSubs_404_skips_update_witness :
    (SubscriptionHandler.UpdateSubs (some (some 3))
      (some { serviceName := "Netflix", price := 15, userId := 7,
              startDate := "01-2025", endDate := none })
      9 (fun _ => .ok false) (fun _ _ => .ok ())).reply.httpStatus = 404 ∧
    (SubscriptionHandler.UpdateSubs (some (some 3))
      (some { serviceName := "Netflix", price := 15, userId := 7,
              startDate := "01-2025", endDate := none })
      9 (fun _ => .ok false) (fun _ _ => .ok ())).reply.body.msg =
      "Subscription does not exist" ∧
    (SubscriptionHandler.UpdateSubs (some (some 3))
      (some { serviceName := "Netflix", price := 15, userId := 7,
              startDate := "01-2025", endDate := none })
      9 (fun _ => .ok false) (fun _ _ => .ok ())).updateCall = none :=
  updateSubs_404_skips_update 3 9
    { serviceName := "Netflix", price := 15, userId := 7,
      startDate := "01-2025", endDate := none }
    "01-2025" none (fun _ => .ok false) (fun _ _ => .ok ()) rfl rfl

/-! ## Claim C2: status of persistence failures -/

/-- Counterexample to C2 as stated: a persistence failure during the update
path's existence pre-check is answered with 404, not 500 — the handler folds
`err != nil` into the not-found branch. -/
theorem updateSubs_existence_failure_404 :
    (SubscriptionHandler.UpdateSubs (some (some 3))
      (some { serviceName := "Netflix", price := 15, userId := 7,
              startDate := "01-2025", endDate := none })
      9 (fun _ => .error "connection refused") (fun _ _ => .ok ())).reply.httpStatus = 404 ∧
    (SubscriptionHandler.UpdateSubs (some (some 3))
      (some { serviceName := "Netflix", price := 15, userId := 7,
              startDate := "01-2025", endDate := none })
      9 (fun _ => .error "connection refused") (fun _ _ => .ok ())).reply.httpStatus ≠ 500 := by
  constructor
  · rfl
  · intro hcon
    exact absurd hcon (by decide)

/-- C2 (amended): a store failure is surfaced as a 500 on the create, get,
delete, list and summary endpoints and on the update write itself, but a
persistence failure during the update path's existence pre-check is reported
as 404. -/
theorem persistence_failure_statuses :
    (∀ (subReq : SubReq) (fid : UUID) (s : String) (e : Option String) (msg : String),
      SubscriptionHandler.validateSubReq subReq = .ok (s, e) →
      (SubscriptionHandler.CreateSubs (some subReq) fid
        (fun _ => .error msg)).httpStatus = 500) ∧
    (∀ (id : UUID) (msg : String),
      (SubscriptionHandler.GetSubs (some (some id))
        (fun _ => .error msg)).httpStatus = 500) ∧
    (∀ (id : UUID) (msg : String),
      (SubscriptionHandler.DeleteSubs (some (some id))
        (fun _ => .error msg)).httpStatus = 500) ∧
    (∀ (up : Option (Option UUID)) (svc : String) (msg : String), up ≠ some none →
      (SubscriptionHandler.ListSubs up svc (fun _ => .error msg)).httpStatus = 500) ∧
    (∀ (req : GetSummaryReq) (msg : String),
      (SubscriptionHandler.GetSummary (some req)
        (fun _ => .error msg)).httpStatus = 500) ∧
    (∀ (id fid : UUID) (subReq : SubReq) (s : String) (e : Option String) (msg : String),
      SubscriptionHandler.validateSubReq subReq = .ok (s, e) →
      (SubscriptionHandler.UpdateSubs (some (some id)) (some subReq) fid
        (fun _ => .ok true) (fun _ _ => .error msg)).reply.httpStatus = 500) ∧
    (∀ (id fid : UUID) (subReq : SubReq) (s : String) (e : Option String) (msg : String)
      (svcUpd : UUID → Subscription → Except String Unit),
      SubscriptionHandler.validateSubReq subReq = .ok (s, e) →
      (SubscriptionHandler.UpdateSubs (some (some id)) (some subReq) fid
        (fun _ => .error msg) svcUpd).reply.httpStatus = 404) := by
  refine ⟨?_, ?_, ?_, ?_, ?_, ?_, ?_⟩
  · intro subReq fid s e msg hv
    simp [SubscriptionHandler.CreateSubs, hv, SubscriptionHandler.sendResponse]
  · intro id msg
    rfl
  · intro id msg
    rfl
  · intro up svc msg hup
    match up with
    | none => rfl
    | some (some u) => rfl
    | some none => exact absurd rfl hup
  · intro req msg
    rfl
  · intro id fid subReq s e msg hv
    simp [SubscriptionHandler.UpdateSubs, hv, SubscriptionHandler.sendResponse]
  · intro id fid subReq s e msg svcUpd hv
    simp [SubscriptionHandler.UpdateSubs, hv, SubscriptionHandler.sendResponse]

/-- Witness for the amended C2, at concrete requests and failures. -/
theorem persistence_failure_statuses_witness :
    (SubscriptionHandler.CreateSubs
      (some { serviceName := "Netflix", price := 15, userId := 7,
              startDate := "01-2025", endDate := none }) 5
      (fun _ => .error "db down")).httpStatus = 500 ∧
    (SubscriptionHandler.GetSubs (some (some 3))
      (fun _ => .error "no rows in result set")).httpStatus = 500 ∧
    (SubscriptionHandler.ListSubs none ""
      (fun _ => .error "db down")).httpStatus = 500 ∧
    (SubscriptionHandler.UpdateSubs (some (some 3))
      (some { serviceName := "Netflix", price := 15, userId := 7,
              startDate := "01-2025", endDate := none }) 9
      (fun _ => .ok true) (fun _ _ => .error "db down")).reply.httpStatus = 500 ∧
    (SubscriptionHandler.UpdateSubs (some (some 3))
      (some { serviceName := "Netflix", price := 15, userId := 7,
              startDate := "01-2025", endDate := none }) 9
      (fun _ => .error "db down") (fun _ _ => .ok ())).reply.httpStatus = 404 :=
  have h := persistence_failure_statuses
  ⟨h.1 { serviceName := "Netflix", price := 15, userId := 7,
         startDate := "01-2025", endDate := none } 5 "01-2025" none "db down" rfl,
   h.2.1 3 "no rows in result set",
   h.2.2.2.1 none "" "db down" (by decide),
   h.2.2.2.2.2.1 3 9 { serviceName := "Netflix", price := 15, userId := 7,
                       startDate := "01-2025", endDate := none } "01-2025" none "db down" rfl,
   h.2.2.2.2.2.2 3 9 { serviceName := "Netflix", price := 15, userId := 7,
                       startDate := "01-2025", endDate := none } "01-2025" none "db down"
     (fun _ _ => .ok ()) rfl⟩

/-! ## Claim C9: response entity of a successful update carries a fresh id -/

/-- C9: on the update path the entity placed in the response envelope carries
the freshly generated UUID, while the persistence update is keyed by the
addressing id from the query string; whenever the fresh id differs from the
addressing id (as a fresh UUID does), the response id matches neither the
addressing id nor the id of the row that was updated. -/
theorem updateSubs_fresh_response_id (id fid : UUID) (subReq : SubReq)
    (s : String) (e : Option String)
    (svcExists : UUID → Except String Bool)
    (svcUpd : UUID → Subscription → Except String Unit)
    (hv : SubscriptionHandler.validateSubReq subReq = .ok (s, e))
    (hex : svcExists id = .ok true) :
    ∃ sub : Subscription,
      (SubscriptionHandler.UpdateSubs (some (some id)) (some subReq) fid svcExists
        svcUpd).updateCall = some (id, sub) ∧
      sub.id = fid ∧
      ((SubscriptionHandler.UpdateSubs (some (some id)) (some subReq) fid svcExists
          svcUpd).reply.httpStatus = 200 →
        (SubscriptionHandler.UpdateSubs (some (some id)) (some subReq) fid svcExists
          svcUpd).reply.body.data = some sub) ∧
      (fid ≠ id → sub.id ≠ id) ∧
      (∀ row : Subscription, row.id = id → fid ≠ id → sub.id ≠ row.id) := by
  refine ⟨⟨fid, subReq.serviceName, subReq.price, subReq.userId, s, e⟩, ?_, rfl, ?_, ?_, ?_⟩
  · rcases hu : svcUpd id ⟨fid, subReq.serviceName, subReq.price, subReq.userId, s, e⟩
      with msg | u <;>
      simp [SubscriptionHandler.UpdateSubs, hv, hex, hu]
  · intro h200
    rcases hu : svcUpd id ⟨fid, subReq.serviceName, subReq.price, subReq.userId, s, e⟩
      with msg | u
    · exfalso
      simp [SubscriptionHandler.UpdateSubs, hv, hex, hu,
        SubscriptionHandler.sendResponse] at h200
    · simp [SubscriptionHandler.UpdateSubs, hv, hex, hu, SubscriptionHandler.sendResponse]
  · intro hne
    exact hne
  · intro row hrow hne
    rw [hrow]
    exact hne

/-- Witness for C9 at a concrete successful update. -/
theorem updateSubs_fresh_response_id_witness :
    ∃ sub : Subscription,
      (SubscriptionHandler.UpdateSubs (some (some 3))
        (some { serviceName := "Netflix", price := 15, userId := 7,
                startDate := "01-2025", endDate := none })
        9 (fun _ => .ok true) (fun _ _ => .ok ())).updateCall = some (3, sub) ∧
      sub.id = 9 ∧
      ((SubscriptionHandler.UpdateSubs (some (some 3))
          (some { serviceName := "Netflix", price := 15, userId := 7,
                  startDate := "01-2025", endDate := none })
          9 (fun _ => .ok true) (fun _ _ => .ok ())).reply.httpStatus = 200 →
        (SubscriptionHandler.UpdateSubs (some (some 3))
          (some { serviceName := "Netflix", price := 15, userId := 7,
                  startDate := "01-2025", endDate := none })
          9 (fun _ => .ok true) (fun _ _ => .ok ())).reply.body.data = some sub) ∧
      ((9 : UUID) ≠ 3 → sub.id ≠ 3) ∧
      (∀ row : Subscription, row.id = 3 → (9 : UUID) ≠ 3 → sub.id ≠ row.id) :=
  updateSubs_fresh_response_id 3 9
    { serviceName := "Netflix", price := 15, userId := 7,
      startDate := "01-2025", endDate := none }
    "01-2025" none (fun _ => .ok true) (fun _ _ => .ok ()) rfl rfl

/-! ## Claim C10: envelope status always equals the HTTP status -/

/-- C10: on every endpoint and every outcome, the numeric status field inside
the JSON envelope equals the HTTP status code written on the response. -/
theorem envelope_status_matches_http :
    (∀ (body : Option SubReq) (fid : UUID) (cf : Subscription → Except String Unit),
      (SubscriptionHandler.CreateSubs body fid cf).httpStatus =
        (SubscriptionHandler.CreateSubs body fid cf).body.status) ∧
    (∀ (idp : Option (Option UUID)) (gf : UUID → Except String Subscription),
      (SubscriptionHandler.GetSubs idp gf).httpStatus =
        (SubscriptionHandler.GetSubs idp gf).body.status) ∧
    (∀ (idp : Option (Option UUID)) (body : Option SubReq) (fid : UUID)
        (ef : UUID → Except String Bool) (uf : UUID → Subscription → Except String Unit),
      (SubscriptionHandler.UpdateSubs idp body fid ef uf).reply.httpStatus =
        (SubscriptionHandler.UpdateSubs idp body fid ef uf).reply.body.status) ∧
    (∀ (idp : Option (Option UUID)) (df : UUID → Except String Unit),
      (SubscriptionHandler.DeleteSubs idp df).httpStatus =
        (SubscriptionHandler.DeleteSubs idp df).body.status) ∧
    (∀ (up : Option (Option UUID)) (svc : String)
        (lf : SubscriptionFilter → Except String (List Subscription)),
      (SubscriptionHandler.ListSubs up svc lf).httpStatus =
        (SubscriptionHandler.ListSubs up svc lf).body.status) ∧
    (∀ (body : Option GetSummaryReq) (sf : GetSummaryReq → Except String Int),
      (SubscriptionHandler.GetSummary body sf).httpStatus =
        (SubscriptionHandler.GetSummary body sf).body.status) := by
  refine ⟨?_, ?_, ?_, ?_, ?_, ?_⟩
  · intro body fid cf
    unfold SubscriptionHandler.CreateSubs
    repeat' split
    all_goals try rfl
    all_goals dsimp only
    all_goals split <;> rfl
  · intro idp gf
    unfold SubscriptionHandler.GetSubs
    repeat' split
    all_goals rfl
  · intro idp body fid ef uf
    unfold SubscriptionHandler.UpdateSubs
    repeat' split
    all_goals try rfl
    all_goals dsimp only
    all_goals split <;> rfl
  · intro idp df
    unfold SubscriptionHandler.DeleteSubs
    repeat' split
    all_goals rfl
  · intro up svc lf
    unfold SubscriptionHandler.ListSubs
    repeat' split
    all_goals rfl
  · intro body sf
    unfold SubscriptionHandler.GetSummary
    repeat' split
    all_goals rfl
